import Mathlib

/-!
Verification of the vsql_mysql adapter: a shallow embedding of the
repository's Go source (mysql.go, transactions.go, param_interpolation.go,
statements file) together with models of the collaborators the code is
written against (the vsql parameterized-query package and the database/sql
transaction handle), and proofs of the specified properties.

Conventions of the embedding:
- Go's nil-able `error` is `Option GoError` (`none` = nil).
- Go pointers that the operations dereference are modelled as plain values;
  pointers that may legitimately be nil (the backend cursor inside a
  result wrapper, the statement/transaction produced by a failed
  prepare/begin) are `Option _`.
- The backend driver is an oracle: a structure of response functions the
  theorems quantify over.  Each embedded operation additionally returns the
  list of driver calls it issued, so "no backend call is made" is the
  trace being `[]`.
- Bound parameter values (Go `interface{}`) are a type parameter `α`.
-/

/-- Go error values, as the adapter distinguishes them: backend-native
errors (opaque, indexed by a code), the binding error raised by
interpolation when a named placeholder has no bound value, and the
"transaction closed" error the database/sql transaction returns once it is
finalized. -/
inductive GoError where
  | backend (code : Nat)
  | missingBinding (name : String)
  | txDone
deriving DecidableEq, Repr

/-- One segment of a parameterized-query template: literal SQL text or a
named placeholder marker.  The template is the already-scanned list of
segments, in left-to-right textual order. -/
inductive TemplateSeg where
  | lit (s : String)
  | param (name : String)
deriving DecidableEq, Repr

/-- Modelled from the spec: the vsql Parameterized Query value (template
plus named bindings); the vsql param package is not part of this
repository's files. -/
structure NamedQuery (α : Type) where
  template : List TemplateSeg
  bindings : List (String × α)
deriving DecidableEq, Repr

/-- Look a bound value up by placeholder name (first binding wins). -/
def lookupBinding {α : Type} (bs : List (String × α)) (n : String) : Option α :=
  match bs with
  | [] => none
  | (k, v) :: rest => if k = n then some v else lookupBinding rest n

/-- The interpolation-strategy interface consumed by rendering: the one
operation producing the backend's placeholder token. -/
structure InterpolateStrategy where
  InsertPlaceholderIntoSQL : String
deriving DecidableEq, Repr

/-- The MySQL interpolation strategy struct of param_interpolation.go: it
has no fields (no state). -/
structure MySQLParamInterpolateStrategy : Type
deriving DecidableEq, Repr

/-- param_interpolation.go: InsertPlaceholderIntoSQL always returns the
fixed token "?". -/
def MySQLParamInterpolateStrategy.InsertPlaceholderIntoSQL
    (_m : MySQLParamInterpolateStrategy) : String :=
  "?"

/-- param_interpolation.go: the shared default strategy instance. -/
def mySQLParamInterpolateStrategyDefault : MySQLParamInterpolateStrategy :=
  {}

/-- The MySQL strategy seen through the strategy interface. -/
def MySQLParamInterpolateStrategy.asStrategy
    (m : MySQLParamInterpolateStrategy) : InterpolateStrategy :=
  ⟨m.InsertPlaceholderIntoSQL⟩

/-- Modelled from the spec: the rendering core of vsql's
`Interpolate(strategy)` (not part of this repository's files) - scan the
template left to right; a literal passes through; a placeholder looks its
value up by name, failing with a missing-binding error if absent, and
otherwise substitutes the strategy's token and appends the value, in the
order the tokens appear. -/
def interpolateSegs {α : Type} (token : String) (bs : List (String × α)) :
    List TemplateSeg → Except GoError (String × List α)
  | [] => Except.ok ("", [])
  | TemplateSeg.lit s :: rest =>
    match interpolateSegs token bs rest with
    | Except.error e => Except.error e
    | Except.ok (t, args) => Except.ok (s ++ t, args)
  | TemplateSeg.param n :: rest =>
    match lookupBinding bs n with
    | none => Except.error (GoError.missingBinding n)
    | some v =>
      match interpolateSegs token bs rest with
      | Except.error e => Except.error e
      | Except.ok (t, args) => Except.ok (token ++ t, v :: args)

/-- Modelled from the spec: vsql's `Interpolate(strategy) ->
(renderedText, orderedArguments, error)`; on a binding error nothing is
partially rendered. -/
def NamedQuery.Interpolate {α : Type} (q : NamedQuery α)
    (strategy : InterpolateStrategy) : String × List α × Option GoError :=
  match interpolateSegs strategy.InsertPlaceholderIntoSQL q.bindings q.template with
  | Except.error e => ("", [], some e)
  | Except.ok (t, args) => (t, args, none)

/-- Text-only rendering of a template: every placeholder becomes the
strategy token, bound values are never consulted, and rendering is total. -/
def sqlTextOnly (token : String) : List TemplateSeg → String
  | [] => ""
  | TemplateSeg.lit s :: rest => s ++ sqlTextOnly token rest
  | TemplateSeg.param _ :: rest => token ++ sqlTextOnly token rest

/-- Modelled from the spec: vsql's `SQLQuery(strategy)` / RenderTextOnly,
used by Prepare, which needs the text before the bound values are known. -/
def NamedQuery.SQLQuery {α : Type} (q : NamedQuery α)
    (strategy : InterpolateStrategy) : String :=
  sqlTextOnly strategy.InsertPlaceholderIntoSQL q.template

/-- The placeholder names of a template, one entry per occurrence, in
left-to-right template order. -/
def templateParamNames (tpl : List TemplateSeg) : List String :=
  tpl.filterMap (fun s =>
    match s with
    | TemplateSeg.param n => some n
    | TemplateSeg.lit _ => none)

/-- A call issued to the backend driver, as recorded in an operation's
trace: pool* calls go to the pooled connection (database/sql DB), tx* calls
to a transaction's reserved connection, stmt* calls execute a prepared plan
directly, and txStmt* calls execute a prepared plan rebound to a
transaction's reserved connection (Tx.StmtContext). -/
inductive DriverCall (α : Type) where
  | poolBeginTx
  | poolQuery (q : String) (args : List α)
  | poolExec (q : String) (args : List α)
  | poolPrepare (q : String)
  | txQuery (q : String) (args : List α)
  | txExec (q : String) (args : List α)
  | txPrepare (q : String)
  | txCommit
  | txRollback
  | stmtQuery (stmt : Nat) (args : List α)
  | stmtExec (stmt : Nat) (args : List α)
  | txStmtQuery (stmt : Nat) (args : List α)
  | txStmtExec (stmt : Nat) (args : List α)
deriving DecidableEq, Repr

/-- Whether a driver call executes on a transaction's reserved connection
via a rebound prepared plan (Tx.StmtContext followed by query/exec). -/
def DriverCall.isTxStmtExecution {α : Type} : DriverCall α → Bool
  | DriverCall.txStmtQuery _ _ => true
  | DriverCall.txStmtExec _ _ => true
  | _ => false

/-- Whether a driver call executes a connection-scoped prepared plan
directly (Stmt.QueryContext / Stmt.ExecContext). -/
def DriverCall.isDirectStmtExecution {α : Type} : DriverCall α → Bool
  | DriverCall.stmtQuery _ _ => true
  | DriverCall.stmtExec _ _ => true
  | _ => false

/-- The backend prepared-statement handle (database/sql *sql.Stmt) as an
oracle: an identifier for the prepared plan plus the backend's responses
when the plan is executed or closed. -/
structure GoSqlStmt (α : Type) where
  id : Nat
  queryResp : List α → Option Nat × Option GoError
  execResp : List α → Option Nat × Option GoError
  closeResp : Option GoError

/-- The responses of the single reserved connection a transaction holds:
what the backend answers to each query/exec/prepare/rebound-statement call
and to commit/rollback. -/
structure TxConn (α : Type) where
  queryResp : String → List α → Option Nat × Option GoError
  execResp : String → List α → Option Nat × Option GoError
  prepareResp : String → Option (GoSqlStmt α) × Option GoError
  stmtQueryResp : Nat → List α → Option Nat × Option GoError
  stmtExecResp : Nat → List α → Option Nat × Option GoError
  commitResp : Option GoError
  rollbackResp : Option GoError

/-- Modelled from the spec: the backend transaction handle (database/sql
*sql.Tx), a collaborator outside this repository's files.  It reserves one
connection and is a two-phase state machine: `done = false` is Active;
Commit and Rollback move it to the terminal done state; every call on a
done transaction fails with the "transaction closed" error without
touching the reserved connection. -/
structure GoSqlTx (α : Type) where
  done : Bool
  conn : TxConn α

/-- Tx.QueryContext: fails with txDone when finalized, else queries over
the reserved connection. -/
def GoSqlTx.QueryContext {α : Type} (t : GoSqlTx α) (q : String) (ps : List α) :
    Option Nat × Option GoError × List (DriverCall α) :=
  if t.done then (none, some GoError.txDone, [])
  else
    let r := t.conn.queryResp q ps
    (r.1, r.2, [DriverCall.txQuery q ps])

/-- Tx.ExecContext: fails with txDone when finalized, else executes over
the reserved connection. -/
def GoSqlTx.ExecContext {α : Type} (t : GoSqlTx α) (q : String) (ps : List α) :
    Option Nat × Option GoError × List (DriverCall α) :=
  if t.done then (none, some GoError.txDone, [])
  else
    let r := t.conn.execResp q ps
    (r.1, r.2, [DriverCall.txExec q ps])

/-- Tx.PrepareContext: fails with txDone when finalized, else prepares over
the reserved connection. -/
def GoSqlTx.PrepareContext {α : Type} (t : GoSqlTx α) (q : String) :
    Option (GoSqlStmt α) × Option GoError × List (DriverCall α) :=
  if t.done then (none, some GoError.txDone, [])
  else
    let r := t.conn.prepareResp q
    (r.1, r.2, [DriverCall.txPrepare q])

/-- Tx.StmtContext(stmt).QueryContext(args): rebinding a prepared plan to
the transaction's reserved connection and querying there; fails with
txDone when finalized. -/
def GoSqlTx.StmtQueryContext {α : Type} (t : GoSqlTx α) (stmt : GoSqlStmt α)
    (ps : List α) : Option Nat × Option GoError × List (DriverCall α) :=
  if t.done then (none, some GoError.txDone, [])
  else
    let r := t.conn.stmtQueryResp stmt.id ps
    (r.1, r.2, [DriverCall.txStmtQuery stmt.id ps])

/-- Tx.StmtContext(stmt).ExecContext(args): rebinding a prepared plan to
the transaction's reserved connection and executing there; fails with
txDone when finalized. -/
def GoSqlTx.StmtExecContext {α : Type} (t : GoSqlTx α) (stmt : GoSqlStmt α)
    (ps : List α) : Option Nat × Option GoError × List (DriverCall α) :=
  if t.done then (none, some GoError.txDone, [])
  else
    let r := t.conn.stmtExecResp stmt.id ps
    (r.1, r.2, [DriverCall.txStmtExec stmt.id ps])

/-- Tx.Commit: fails with txDone when already finalized, else commits and
enters the terminal state. -/
def GoSqlTx.Commit {α : Type} (t : GoSqlTx α) :
    Option GoError × GoSqlTx α × List (DriverCall α) :=
  if t.done then (some GoError.txDone, t, [])
  else (t.conn.commitResp, ⟨true, t.conn⟩, [DriverCall.txCommit])

/-- Tx.Rollback: fails with txDone when already finalized, else rolls back
and enters the terminal state. -/
def GoSqlTx.Rollback {α : Type} (t : GoSqlTx α) :
    Option GoError × GoSqlTx α × List (DriverCall α) :=
  if t.done then (some GoError.txDone, t, [])
  else (t.conn.rollbackResp, ⟨true, t.conn⟩, [DriverCall.txRollback])

/-- Transaction options: isolation level and read-only flag (sql.TxOptions). -/
structure TxOptions where
  isolation : Nat
  readOnly : Bool
deriving DecidableEq, Repr

/-- The pooled-connection driver (database/sql DB) as an oracle of
responses. -/
structure DB (α : Type) where
  beginTxResp : Option TxOptions → Option (GoSqlTx α) × Option GoError
  queryResp : String → List α → Option Nat × Option GoError
  execResp : String → List α → Option Nat × Option GoError
  prepareResp : String → Option (GoSqlStmt α) × Option GoError

/-- The cursor wrapper vrows.RowsImpl: a struct whose SqlRows field holds
the backend cursor pointer (nil until a backend call fills it in). -/
structure RowsImpl where
  SqlRows : Option Nat
deriving DecidableEq, Repr

/-- The result wrapper vresult.QueryResult: a struct whose SqlRes field
holds the backend result pointer (nil until a backend call fills it in). -/
structure QueryResult where
  SqlRes : Option Nat
deriving DecidableEq, Repr

/-- mysql.go: the mySQL connection manager, a facade over the pooled
driver. -/
structure mySQL (α : Type) where
  db : DB α

/-- transactions.go: the mySQLtx transaction handle, wrapping the backend
transaction (its tx pointer; operations are modelled on handles whose
pointer is live - Go would crash on a nil one). -/
structure mySQLtx (α : Type) where
  tx : GoSqlTx α

/-- Statements file: mysqlStatement, a prepared statement NOT running in
the context of a transaction. -/
structure mysqlStatement (α : Type) where
  stmt : GoSqlStmt α

/-- transactions.go: mysqlStatementTx, a prepared statement within the
context of a transaction - it keeps both the prepared plan and the owning
transaction. -/
structure mysqlStatementTx (α : Type) where
  stmt : GoSqlStmt α
  tx : GoSqlTx α

/-- mysql.go Begin: convert the options (nil stays nil), allocate the
handle, assign `t.tx, err = m.db.BeginTx(ctx, txo)` - and then
`return t, nil`, so the error from BeginTx is discarded.  The result is
(the tx field of the returned handle, the returned error, the driver
calls). -/
def mySQL.Begin {α : Type} (m : mySQL α) (txOp : Option TxOptions) :
    Option (GoSqlTx α) × Option GoError × List (DriverCall α) :=
  let txo : Option TxOptions := txOp
  let r := m.db.beginTxResp txo
  (r.1, none, [DriverCall.poolBeginTx])

/-- mysql.go mySQL.Query: allocate the RowsImpl wrapper, interpolate with
the shared default strategy, return the wrapper and the binding error on
failure, else query the pooled connection and return the wrapper, the
backend error and the issued call. -/
def mySQL.Query {α : Type} (m : mySQL α) (query : NamedQuery α) :
    Option RowsImpl × Option GoError × List (DriverCall α) :=
  match query.Interpolate mySQLParamInterpolateStrategyDefault.asStrategy with
  | (_, _, some e) => (some ⟨none⟩, some e, [])
  | (q, ps, none) =>
    let r := m.db.queryResp q ps
    (some ⟨r.1⟩, r.2, [DriverCall.poolQuery q ps])

/-- mysql.go mySQL.Insert: allocate the QueryResult wrapper, interpolate,
return early on a binding error, else exec on the pooled connection. -/
def mySQL.Insert {α : Type} (m : mySQL α) (query : NamedQuery α) :
    Option QueryResult × Option GoError × List (DriverCall α) :=
  match query.Interpolate mySQLParamInterpolateStrategyDefault.asStrategy with
  | (_, _, some e) => (some ⟨none⟩, some e, [])
  | (q, ps, none) =>
    let r := m.db.execResp q ps
    (some ⟨r.1⟩, r.2, [DriverCall.poolExec q ps])

/-- mysql.go mySQL.Exec: allocate the QueryResult wrapper, interpolate,
return early on a binding error, else exec on the pooled connection. -/
def mySQL.Exec {α : Type} (m : mySQL α) (query : NamedQuery α) :
    Option QueryResult × Option GoError × List (DriverCall α) :=
  match query.Interpolate mySQLParamInterpolateStrategyDefault.asStrategy with
  | (_, _, some e) => (some ⟨none⟩, some e, [])
  | (q, ps, none) =>
    let r := m.db.execResp q ps
    (some ⟨r.1⟩, r.2, [DriverCall.poolExec q ps])

/-- mysql.go mySQL.Prepare: render only the text via SQLQuery (no bound
values consulted), prepare on the pooled connection.  The result is (the
stmt field of the returned mysqlStatement, the error, the calls). -/
def mySQL.Prepare {α : Type} (m : mySQL α) (query : NamedQuery α) :
    Option (GoSqlStmt α) × Option GoError × List (DriverCall α) :=
  let q := query.SQLQuery mySQLParamInterpolateStrategyDefault.asStrategy
  let r := m.db.prepareResp q
  (r.1, r.2, [DriverCall.poolPrepare q])

/-- transactions.go mySQLtx.Commit: delegate to the backend transaction's
Commit; the handle's new state is returned alongside. -/
def mySQLtx.Commit {α : Type} (m : mySQLtx α) :
    Option GoError × mySQLtx α × List (DriverCall α) :=
  let r := m.tx.Commit
  (r.1, ⟨r.2.1⟩, r.2.2)

/-- transactions.go mySQLtx.Rollback: delegate to the backend
transaction's Rollback; the handle's new state is returned alongside. -/
def mySQLtx.Rollback {α : Type} (m : mySQLtx α) :
    Option GoError × mySQLtx α × List (DriverCall α) :=
  let r := m.tx.Rollback
  (r.1, ⟨r.2.1⟩, r.2.2)

/-- transactions.go mySQLtx.Query: interpolate with the shared default
strategy, return the wrapper and the binding error on failure, else query
over the reserved transaction connection. -/
def mySQLtx.Query {α : Type} (m : mySQLtx α) (query : NamedQuery α) :
    Option RowsImpl × Option GoError × List (DriverCall α) :=
  match query.Interpolate mySQLParamInterpolateStrategyDefault.asStrategy with
  | (_, _, some e) => (some ⟨none⟩, some e, [])
  | (q, ps, none) =>
    let r := m.tx.QueryContext q ps
    (some ⟨r.1⟩, r.2.1, r.2.2)

/-- transactions.go mySQLtx.Insert: interpolate, return early on a binding
error, else exec over the reserved transaction connection. -/
def mySQLtx.Insert {α : Type} (m : mySQLtx α) (query : NamedQuery α) :
    Option QueryResult × Option GoError × List (DriverCall α) :=
  match query.Interpolate mySQLParamInterpolateStrategyDefault.asStrategy with
  | (_, _, some e) => (some ⟨none⟩, some e, [])
  | (q, ps, none) =>
    let r := m.tx.ExecContext q ps
    (some ⟨r.1⟩, r.2.1, r.2.2)

/-- transactions.go mySQLtx.Exec: interpolate, return early on a binding
error, else exec over the reserved transaction connection. -/
def mySQLtx.Exec {α : Type} (m : mySQLtx α) (query : NamedQuery α) :
    Option QueryResult × Option GoError × List (DriverCall α) :=
  match query.Interpolate mySQLParamInterpolateStrategyDefault.asStrategy with
  | (_, _, some e) => (some ⟨none⟩, some e, [])
  | (q, ps, none) =>
    let r := m.tx.ExecContext q ps
    (some ⟨r.1⟩, r.2.1, r.2.2)

/-- transactions.go mySQLtx.Prepare: render only the text via SQLQuery,
prepare over the reserved transaction connection.  The result is (the stmt
field of the returned mysqlStatementTx, whose tx field is m.tx, the error,
the calls). -/
def mySQLtx.Prepare {α : Type} (m : mySQLtx α) (query : NamedQuery α) :
    Option (GoSqlStmt α) × Option GoError × List (DriverCall α) :=
  let q := query.SQLQuery mySQLParamInterpolateStrategyDefault.asStrategy
  let r := m.tx.PrepareContext q
  (r.1, r.2.1, r.2.2)

/-- Statements file mysqlStatement.Query: interpolate (the rendered text is
discarded), return early on a binding error, else execute the prepared
plan directly with the ordered arguments. -/
def mysqlStatement.Query {α : Type} (m : mysqlStatement α) (query : NamedQuery α) :
    Option RowsImpl × Option GoError × List (DriverCall α) :=
  match query.Interpolate mySQLParamInterpolateStrategyDefault.asStrategy with
  | (_, _, some e) => (some ⟨none⟩, some e, [])
  | (_, ps, none) =>
    let r := m.stmt.queryResp ps
    (some ⟨r.1⟩, r.2, [DriverCall.stmtQuery m.stmt.id ps])

/-- Statements file mysqlStatement.Insert: interpolate, return early on a
binding error, else execute the prepared plan directly. -/
def mysqlStatement.Insert {α : Type} (m : mysqlStatement α) (query : NamedQuery α) :
    Option QueryResult × Option GoError × List (DriverCall α) :=
  match query.Interpolate mySQLParamInterpolateStrategyDefault.asStrategy with
  | (_, _, some e) => (some ⟨none⟩, some e, [])
  | (_, ps, none) =>
    let r := m.stmt.execResp ps
    (some ⟨r.1⟩, r.2, [DriverCall.stmtExec m.stmt.id ps])

/-- Statements file mysqlStatement.Exec: interpolate, return early on a
binding error, else execute the prepared plan directly. -/
def mysqlStatement.Exec {α : Type} (m : mysqlStatement α) (query : NamedQuery α) :
    Option QueryResult × Option GoError × List (DriverCall α) :=
  match query.Interpolate mySQLParamInterpolateStrategyDefault.asStrategy with
  | (_, _, some e) => (some ⟨none⟩, some e, [])
  | (_, ps, none) =>
    let r := m.stmt.execResp ps
    (some ⟨r.1⟩, r.2, [DriverCall.stmtExec m.stmt.id ps])

/-- transactions.go mysqlStatementTx.Query: interpolate, return early on a
binding error, else rebind the plan to the owning transaction's reserved
connection (Tx.StmtContext) and query there. -/
def mysqlStatementTx.Query {α : Type} (m : mysqlStatementTx α)
    (query : NamedQuery α) :
    Option RowsImpl × Option GoError × List (DriverCall α) :=
  match query.Interpolate mySQLParamInterpolateStrategyDefault.asStrategy with
  | (_, _, some e) => (some ⟨none⟩, some e, [])
  | (_, ps, none) =>
    let r := m.tx.StmtQueryContext m.stmt ps
    (some ⟨r.1⟩, r.2.1, r.2.2)

/-- transactions.go mysqlStatementTx.Insert: interpolate, return early on
a binding error, else rebind the plan to the owning transaction's reserved
connection and execute there. -/
def mysqlStatementTx.Insert {α : Type} (m : mysqlStatementTx α)
    (query : NamedQuery α) :
    Option QueryResult × Option GoError × List (DriverCall α) :=
  match query.Interpolate mySQLParamInterpolateStrategyDefault.asStrategy with
  | (_, _, some e) => (some ⟨none⟩, some e, [])
  | (_, ps, none) =>
    let r := m.tx.StmtExecContext m.stmt ps
    (some ⟨r.1⟩, r.2.1, r.2.2)

/-- transactions.go mysqlStatementTx.Exec: interpolate, return early on a
binding error, else rebind the plan to the owning transaction's reserved
connection and execute there. -/
def mysqlStatementTx.Exec {α : Type} (m : mysqlStatementTx α)
    (query : NamedQuery α) :
    Option QueryResult × Option GoError × List (DriverCall α) :=
  match query.Interpolate mySQLParamInterpolateStrategyDefault.asStrategy with
  | (_, _, some e) => (some ⟨none⟩, some e, [])
  | (_, ps, none) =>
    let r := m.tx.StmtExecContext m.stmt ps
    (some ⟨r.1⟩, r.2.1, r.2.2)

/-- The call-level algorithm shared by every Query implementation: render
via the shared default strategy, return early on an interpolation error,
else dispatch the rendered text and ordered arguments. -/
def queryAlgorithm {α : Type}
    (dispatch : String → List α → Option Nat × Option GoError × List (DriverCall α))
    (query : NamedQuery α) :
    Option RowsImpl × Option GoError × List (DriverCall α) :=
  match query.Interpolate mySQLParamInterpolateStrategyDefault.asStrategy with
  | (_, _, some e) => (some ⟨none⟩, some e, [])
  | (q, ps, none) =>
    let r := dispatch q ps
    (some ⟨r.1⟩, r.2.1, r.2.2)

/-- The call-level algorithm shared by every Insert/Exec implementation:
render via the shared default strategy, return early on an interpolation
error, else dispatch the rendered text and ordered arguments. -/
def execAlgorithm {α : Type}
    (dispatch : String → List α → Option Nat × Option GoError × List (DriverCall α))
    (query : NamedQuery α) :
    Option QueryResult × Option GoError × List (DriverCall α) :=
  match query.Interpolate mySQLParamInterpolateStrategyDefault.asStrategy with
  | (_, _, some e) => (some ⟨none⟩, some e, [])
  | (q, ps, none) =>
    let r := dispatch q ps
    (some ⟨r.1⟩, r.2.1, r.2.2)

/-- The call-level algorithm shared by every Prepare implementation:
render only the text via the shared default strategy, then dispatch it to
the backend's prepare primitive. -/
def prepareAlgorithm {α : Type}
    (dispatch : String → Option (GoSqlStmt α) × Option GoError × List (DriverCall α))
    (query : NamedQuery α) :
    Option (GoSqlStmt α) × Option GoError × List (DriverCall α) :=
  dispatch (query.SQLQuery mySQLParamInterpolateStrategyDefault.asStrategy)

/-- Dispatching a query to the pooled connection. -/
def poolQueryDispatch {α : Type} (db : DB α) (q : String) (ps : List α) :
    Option Nat × Option GoError × List (DriverCall α) :=
  let r := db.queryResp q ps
  (r.1, r.2, [DriverCall.poolQuery q ps])

/-- Dispatching an exec to the pooled connection. -/
def poolExecDispatch {α : Type} (db : DB α) (q : String) (ps : List α) :
    Option Nat × Option GoError × List (DriverCall α) :=
  let r := db.execResp q ps
  (r.1, r.2, [DriverCall.poolExec q ps])

/-- Dispatching a prepare to the pooled connection. -/
def poolPrepareDispatch {α : Type} (db : DB α) (q : String) :
    Option (GoSqlStmt α) × Option GoError × List (DriverCall α) :=
  let r := db.prepareResp q
  (r.1, r.2, [DriverCall.poolPrepare q])

/-- The outcome of a transaction body: a normal return carrying the commit
flag and an error, or a panic carrying its value. -/
inductive BodyOutcome where
  | returns (commit : Bool) (err : Option GoError)
  | panics (v : Nat)
deriving DecidableEq, Repr

/-- What the lifecycle wrapper does after the body: a normal return of an
error value, or re-raising the body's panic. -/
inductive TxnOutcome where
  | normal (err : Option GoError)
  | panicked (v : Nat)
deriving DecidableEq, Repr

/-- Modelled from the spec: the transaction lifecycle wrapper vsql.Txn /
RunInTransaction (the vsql package is not part of this repository's
files), taken after a successful begin: invoke the body with the handle;
if it panics, issue Rollback and re-raise the panic unchanged; if it
returns commit == true and err == nil, issue Commit and return its error;
otherwise issue Rollback and return the body's error (nil when commit was
simply false).  The trace holds the finalizer's driver calls. -/
def runInTransaction {α : Type} (t : mySQLtx α)
    (body : mySQLtx α → BodyOutcome) : TxnOutcome × List (DriverCall α) :=
  match body t with
  | BodyOutcome.panics v =>
    let r := t.Rollback
    (TxnOutcome.panicked v, r.2.2)
  | BodyOutcome.returns true none =>
    let r := t.Commit
    (TxnOutcome.normal r.1, r.2.2)
  | BodyOutcome.returns _ e =>
    let r := t.Rollback
    (TxnOutcome.normal e, r.2.2)

/-- A concrete prepared-plan oracle used to instantiate theorems. -/
def witnessStmt : GoSqlStmt Nat :=
  ⟨11, fun _ => (some 21, none), fun _ => (some 22, none), none⟩

/-- A concrete reserved-connection oracle used to instantiate theorems. -/
def witnessTxConn : TxConn Nat :=
  ⟨fun _ _ => (some 31, none), fun _ _ => (some 32, none),
   fun _ => (some witnessStmt, none),
   fun _ _ => (some 33, none), fun _ _ => (some 34, none), none, none⟩

/-- A concrete pooled-connection oracle used to instantiate theorems. -/
def witnessDB : DB Nat :=
  ⟨fun _ => (some ⟨false, witnessTxConn⟩, none),
   fun _ _ => (some 41, none), fun _ _ => (some 42, none),
   fun _ => (some witnessStmt, none)⟩

/-- A pooled-connection oracle whose begin-transaction call fails with a
backend error. -/
def beginFailDB : DB Nat :=
  ⟨fun _ => (none, some (GoError.backend 7)),
   fun _ _ => (none, none), fun _ _ => (none, none), fun _ => (none, none)⟩

/-- A parameterized query whose placeholder has no bound value. -/
def missingBindingQuery : NamedQuery Nat :=
  ⟨[TemplateSeg.lit "SELECT x WHERE y = ", TemplateSeg.param "b"], []⟩

/-- The spec's scenario query: template SELECT x WHERE y = :a AND z = :a
with a bound to 5. -/
def exampleNamedQuery : NamedQuery Nat :=
  ⟨[TemplateSeg.lit "SELECT x WHERE y = ", TemplateSeg.param "a",
    TemplateSeg.lit " AND z = ", TemplateSeg.param "a"], [("a", 5)]⟩

/-- The results of n successive invocations of the strategy's token
operation on a given instance. -/
def strategyCallResults (m : MySQLParamInterpolateStrategy) (n : Nat) :
    List String :=
  (List.range n).map (fun _ => m.InsertPlaceholderIntoSQL)

/-- Claim C9: the MySQL interpolation strategy is deterministic and
stateless - InsertPlaceholderIntoSQL returns the fixed token "?" on every
invocation, the strategy type has a single value (no state to modify, so
any two instances coincide), and any sequence of calls on any instances
produces the same results: n calls yield n copies of "?". -/
theorem mysql_strategy_deterministic_stateless :
    ∀ (m m' : MySQLParamInterpolateStrategy) (n : Nat),
      m.InsertPlaceholderIntoSQL = "?" ∧ m = m' ∧
      strategyCallResults m n = strategyCallResults m' n ∧
      strategyCallResults m n = List.replicate n "?" := by
  intro m m' n
  refine ⟨rfl, rfl, rfl, ?_⟩
  simp [strategyCallResults, MySQLParamInterpolateStrategy.InsertPlaceholderIntoSQL,
    List.map_const']

/-- templateParamNames passes over a literal segment. -/
theorem templateParamNames_lit (s : String) (rest : List TemplateSeg) :
    templateParamNames (TemplateSeg.lit s :: rest) = templateParamNames rest :=
  rfl

/-- templateParamNames records a placeholder occurrence. -/
theorem templateParamNames_param (n : String) (rest : List TemplateSeg) :
    templateParamNames (TemplateSeg.param n :: rest) =
      n :: templateParamNames rest :=
  rfl

/-- filterMap keeps the length of a list on which the function is
everywhere some. -/
theorem filterMap_length_of_isSome {α : Type} (f : String → Option α) :
    ∀ l : List String, (∀ n ∈ l, (f n).isSome) →
      (l.filterMap f).length = l.length := by
  intro l
  induction l with
  | nil => intro _; rfl
  | cons a as ih =>
    intro h
    have ha : (f a).isSome := h a (by simp)
    obtain ⟨v, hv⟩ := Option.isSome_iff_exists.mp ha
    have hrest : ∀ n ∈ as, (f n).isSome := fun n hn => h n (by simp [hn])
    simp [List.filterMap_cons, hv, ih hrest]

/-- When every placeholder of a template has a binding, interpolation
succeeds, renders the same text as the text-only rendering, and appends
exactly the looked-up value for each occurrence in left-to-right order. -/
theorem interpolateSegs_complete {α : Type} (token : String)
    (bs : List (String × α)) :
    ∀ tpl : List TemplateSeg,
      (∀ n ∈ templateParamNames tpl, (lookupBinding bs n).isSome) →
      interpolateSegs token bs tpl =
        Except.ok (sqlTextOnly token tpl,
          (templateParamNames tpl).filterMap (lookupBinding bs)) := by
  intro tpl
  induction tpl with
  | nil => intro _; rfl
  | cons seg rest ih =>
    intro h
    cases seg with
    | lit s =>
      have hrest : ∀ n ∈ templateParamNames rest, (lookupBinding bs n).isSome := by
        intro n hn
        exact h n (by rw [templateParamNames_lit]; exact hn)
      simp [interpolateSegs, sqlTextOnly, templateParamNames_lit,
        List.filterMap_cons, ih hrest]
    | param n =>
      have hn : (lookupBinding bs n).isSome :=
        h n (by rw [templateParamNames_param]; exact List.mem_cons_self n _)
      obtain ⟨v, hv⟩ := Option.isSome_iff_exists.mp hn
      have hrest : ∀ n' ∈ templateParamNames rest, (lookupBinding bs n').isSome := by
        intro n' hn'
        exact h n' (by rw [templateParamNames_param]; exact List.mem_cons_of_mem n hn')
      simp [interpolateSegs, sqlTextOnly, templateParamNames_param,
        List.filterMap_cons, hv, ih hrest]

/-- Claim C5: with every placeholder bound, Interpolate produces exactly
one positional argument per placeholder occurrence in left-to-right
template order (the argument list is the per-occurrence lookup of the
occurrence list, so its length is the occurrence count and a name used
twice contributes its value twice), and the spec's scenario query renders
to "SELECT x WHERE y = ? AND z = ?" with argument list [5, 5] under the
fixed-token strategy. -/
theorem interpolate_one_arg_per_occurrence {α : Type} (q : NamedQuery α)
    (hall : ∀ n ∈ templateParamNames q.template,
      (lookupBinding q.bindings n).isSome) :
    q.Interpolate mySQLParamInterpolateStrategyDefault.asStrategy =
      (q.SQLQuery mySQLParamInterpolateStrategyDefault.asStrategy,
       (templateParamNames q.template).filterMap (lookupBinding q.bindings),
       none) ∧
    ((q.Interpolate mySQLParamInterpolateStrategyDefault.asStrategy).2.1).length =
      (templateParamNames q.template).length ∧
    exampleNamedQuery.Interpolate mySQLParamInterpolateStrategyDefault.asStrategy =
      ("SELECT x WHERE y = ? AND z = ?", [5, 5], none) := by
  have hmain := interpolateSegs_complete
    (mySQLParamInterpolateStrategyDefault.asStrategy.InsertPlaceholderIntoSQL)
    q.bindings q.template hall
  have h1 : q.Interpolate mySQLParamInterpolateStrategyDefault.asStrategy =
      (q.SQLQuery mySQLParamInterpolateStrategyDefault.asStrategy,
       (templateParamNames q.template).filterMap (lookupBinding q.bindings),
       none) := by
    rw [NamedQuery.Interpolate, hmain]
    rfl
  refine ⟨h1, ?_, by decide⟩
  rw [h1]
  exact filterMap_length_of_isSome (lookupBinding q.bindings)
    (templateParamNames q.template) hall

/-- The scenario instance of claim C5's theorem: the example query's
hypotheses hold concretely and it renders as the spec's scenario says. -/
theorem interpolate_one_arg_per_occurrence_witness :
    exampleNamedQuery.Interpolate mySQLParamInterpolateStrategyDefault.asStrategy =
      ("SELECT x WHERE y = ? AND z = ?", [5, 5], none) :=
  (interpolate_one_arg_per_occurrence exampleNamedQuery (by decide)).2.2

/-- Claim C1 (the code as it stands): mysql.go's Begin assigns
`t.tx, err = m.db.BeginTx(ctx, txo)` and then returns `t, nil` - with a
driver whose begin-transaction call fails with backend error 7, the driver
reports the error yet Begin hands the caller a nil error alongside the
handle, contradicting the pass-through contract. -/
theorem begin_discards_driver_error :
    beginFailDB.beginTxResp none = (none, some (GoError.backend 7)) ∧
    (mySQL.Begin ⟨beginFailDB⟩ none).1 = none ∧
    (mySQL.Begin ⟨beginFailDB⟩ none).2.1 = none := by
  exact ⟨rfl, rfl, rfl⟩

/-- Claim C3: on every handle and statement variant, an interpolation
failure makes Query/Insert/Exec return that binding error with an empty
(but non-nil) result wrapper and an empty driver-call trace - the backend
query/exec primitive is never invoked on the error path. -/
theorem binding_error_no_backend_call {α : Type}
    (db : DB α) (t : GoSqlTx α) (st : GoSqlStmt α)
    (q : NamedQuery α) (e : GoError)
    (h : (q.Interpolate mySQLParamInterpolateStrategyDefault.asStrategy).2.2 =
      some e) :
    mySQL.Query ⟨db⟩ q = (some ⟨none⟩, some e, []) ∧
    mySQL.Insert ⟨db⟩ q = (some ⟨none⟩, some e, []) ∧
    mySQL.Exec ⟨db⟩ q = (some ⟨none⟩, some e, []) ∧
    mySQLtx.Query ⟨t⟩ q = (some ⟨none⟩, some e, []) ∧
    mySQLtx.Insert ⟨t⟩ q = (some ⟨none⟩, some e, []) ∧
    mySQLtx.Exec ⟨t⟩ q = (some ⟨none⟩, some e, []) ∧
    mysqlStatement.Query ⟨st⟩ q = (some ⟨none⟩, some e, []) ∧
    mysqlStatement.Insert ⟨st⟩ q = (some ⟨none⟩, some e, []) ∧
    mysqlStatement.Exec ⟨st⟩ q = (some ⟨none⟩, some e, []) ∧
    mysqlStatementTx.Query ⟨st, t⟩ q = (some ⟨none⟩, some e, []) ∧
    mysqlStatementTx.Insert ⟨st, t⟩ q = (some ⟨none⟩, some e, []) ∧
    mysqlStatementTx.Exec ⟨st, t⟩ q = (some ⟨none⟩, some e, []) := by
  rcases hq : q.Interpolate mySQLParamInterpolateStrategyDefault.asStrategy with
    ⟨s, ps, err⟩
  rw [hq] at h
  simp only at h
  subst h
  simp [mySQL.Query, mySQL.Insert, mySQL.Exec, mySQLtx.Query, mySQLtx.Insert,
    mySQLtx.Exec, mysqlStatement.Query, mysqlStatement.Insert,
    mysqlStatement.Exec, mysqlStatementTx.Query, mysqlStatementTx.Insert,
    mysqlStatementTx.Exec, hq]

/-- A concrete run of claim C3's theorem: the query with an unbound
placeholder makes the pooled-connection Query return the binding error
with no driver call. -/
theorem binding_error_no_backend_call_witness :
    (missingBindingQuery.Interpolate
        mySQLParamInterpolateStrategyDefault.asStrategy).2.2 =
      some (GoError.missingBinding "b") ∧
    mySQL.Query ⟨witnessDB⟩ missingBindingQuery =
      (some ⟨none⟩, some (GoError.missingBinding "b"), []) :=
  ⟨by decide,
    (binding_error_no_backend_call witnessDB ⟨false, witnessTxConn⟩ witnessStmt
      missingBindingQuery (GoError.missingBinding "b") (by decide)).1⟩

/-- Claim C10: every Query, Insert and Exec on every handle and statement
variant returns a non-nil result object - the allocated wrapper is handed
back even when the operation also returns an interpolation or backend
error. -/
theorem operations_return_non_nil_result {α : Type}
    (db : DB α) (t : GoSqlTx α) (st : GoSqlStmt α) (q : NamedQuery α) :
    (mySQL.Query ⟨db⟩ q).1.isSome = true ∧
    (mySQL.Insert ⟨db⟩ q).1.isSome = true ∧
    (mySQL.Exec ⟨db⟩ q).1.isSome = true ∧
    (mySQLtx.Query ⟨t⟩ q).1.isSome = true ∧
    (mySQLtx.Insert ⟨t⟩ q).1.isSome = true ∧
    (mySQLtx.Exec ⟨t⟩ q).1.isSome = true ∧
    (mysqlStatement.Query ⟨st⟩ q).1.isSome = true ∧
    (mysqlStatement.Insert ⟨st⟩ q).1.isSome = true ∧
    (mysqlStatement.Exec ⟨st⟩ q).1.isSome = true ∧
    (mysqlStatementTx.Query ⟨st, t⟩ q).1.isSome = true ∧
    (mysqlStatementTx.Insert ⟨st, t⟩ q).1.isSome = true ∧
    (mysqlStatementTx.Exec ⟨st, t⟩ q).1.isSome = true := by
  rcases hq : q.Interpolate mySQLParamInterpolateStrategyDefault.asStrategy with
    ⟨s, ps, err⟩
  cases err <;>
    simp [mySQL.Query, mySQL.Insert, mySQL.Exec, mySQLtx.Query, mySQLtx.Insert,
      mySQLtx.Exec, mysqlStatement.Query, mysqlStatement.Insert,
      mysqlStatement.Exec, mysqlStatementTx.Query, mysqlStatementTx.Insert,
      mysqlStatementTx.Exec, hq]

/-- Claim C6: the connection handle and the transaction handle implement
each of the four capabilities by the same call-level algorithm
(interpolate through the shared strategy, return early on interpolation
error, dispatch the rendered text and ordered arguments), differing only
in the dispatcher: the pooled connection versus the reserved transaction
connection. -/
theorem handles_share_call_level_algorithm {α : Type}
    (db : DB α) (t : GoSqlTx α) (q : NamedQuery α) :
    mySQL.Query ⟨db⟩ q = queryAlgorithm (poolQueryDispatch db) q ∧
    mySQLtx.Query ⟨t⟩ q = queryAlgorithm t.QueryContext q ∧
    mySQL.Insert ⟨db⟩ q = execAlgorithm (poolExecDispatch db) q ∧
    mySQLtx.Insert ⟨t⟩ q = execAlgorithm t.ExecContext q ∧
    mySQL.Exec ⟨db⟩ q = execAlgorithm (poolExecDispatch db) q ∧
    mySQLtx.Exec ⟨t⟩ q = execAlgorithm t.ExecContext q ∧
    mySQL.Prepare ⟨db⟩ q = prepareAlgorithm (poolPrepareDispatch db) q ∧
    mySQLtx.Prepare ⟨t⟩ q = prepareAlgorithm t.PrepareContext q := by
  rcases hq : q.Interpolate mySQLParamInterpolateStrategyDefault.asStrategy with
    ⟨s, ps, err⟩
  cases err <;>
    simp [mySQL.Query, mySQL.Insert, mySQL.Exec, mySQL.Prepare, mySQLtx.Query,
      mySQLtx.Insert, mySQLtx.Exec, mySQLtx.Prepare, queryAlgorithm,
      execAlgorithm, prepareAlgorithm, poolQueryDispatch, poolExecDispatch,
      poolPrepareDispatch, hq]

/-- Claim C7: a transaction-scoped prepared statement executes every
Query/Insert/Exec by rebinding its plan to the owning transaction's
reserved connection (every driver call in its trace is a rebound
tx-statement execution, never a pooled or direct-plan call), and with a
live transaction and successful rendering the rebound call is issued on
each invocation; the connection-scoped variant executes its plan
directly. -/
theorem tx_statement_routes_through_reserved_connection {α : Type}
    (st : GoSqlStmt α) (t : GoSqlTx α) (q : NamedQuery α)
    (s : String) (ps : List α)
    (hq : q.Interpolate mySQLParamInterpolateStrategyDefault.asStrategy =
      (s, ps, none))
    (hactive : t.done = false) :
    (∀ (t' : GoSqlTx α) (q' : NamedQuery α) (c : DriverCall α),
      (c ∈ (mysqlStatementTx.Query ⟨st, t'⟩ q').2.2 ∨
       c ∈ (mysqlStatementTx.Insert ⟨st, t'⟩ q').2.2 ∨
       c ∈ (mysqlStatementTx.Exec ⟨st, t'⟩ q').2.2) →
      c.isTxStmtExecution = true) ∧
    (mysqlStatementTx.Query ⟨st, t⟩ q).2.2 = [DriverCall.txStmtQuery st.id ps] ∧
    (mysqlStatementTx.Insert ⟨st, t⟩ q).2.2 = [DriverCall.txStmtExec st.id ps] ∧
    (mysqlStatementTx.Exec ⟨st, t⟩ q).2.2 = [DriverCall.txStmtExec st.id ps] ∧
    (∀ (q' : NamedQuery α) (c : DriverCall α),
      (c ∈ (mysqlStatement.Query ⟨st⟩ q').2.2 ∨
       c ∈ (mysqlStatement.Insert ⟨st⟩ q').2.2 ∨
       c ∈ (mysqlStatement.Exec ⟨st⟩ q').2.2) →
      c.isDirectStmtExecution = true) ∧
    (mysqlStatement.Query ⟨st⟩ q).2.2 = [DriverCall.stmtQuery st.id ps] ∧
    (mysqlStatement.Insert ⟨st⟩ q).2.2 = [DriverCall.stmtExec st.id ps] ∧
    (mysqlStatement.Exec ⟨st⟩ q).2.2 = [DriverCall.stmtExec st.id ps] := by
  refine ⟨?_, ?_, ?_, ?_, ?_, ?_, ?_, ?_⟩
  · intro t' q' c hc
    rcases hq' : q'.Interpolate mySQLParamInterpolateStrategyDefault.asStrategy with
      ⟨s', ps', err'⟩
    rcases hc with hc | hc | hc <;> cases err' <;> by_cases hd : t'.done <;>
      simp [mysqlStatementTx.Query, mysqlStatementTx.Insert,
        mysqlStatementTx.Exec, GoSqlTx.StmtQueryContext, GoSqlTx.StmtExecContext,
        hq', hd] at hc <;>
      simp [hc, DriverCall.isTxStmtExecution]
  · simp [mysqlStatementTx.Query, GoSqlTx.StmtQueryContext, hq, hactive]
  · simp [mysqlStatementTx.Insert, GoSqlTx.StmtExecContext, hq, hactive]
  · simp [mysqlStatementTx.Exec, GoSqlTx.StmtExecContext, hq, hactive]
  · intro q' c hc
    rcases hq' : q'.Interpolate mySQLParamInterpolateStrategyDefault.asStrategy with
      ⟨s', ps', err'⟩
    rcases hc with hc | hc | hc <;> cases err' <;>
      simp [mysqlStatement.Query, mysqlStatement.Insert, mysqlStatement.Exec,
        hq'] at hc <;>
      simp [hc, DriverCall.isDirectStmtExecution]
  · simp [mysqlStatement.Query, hq]
  · simp [mysqlStatement.Insert, hq]
  · simp [mysqlStatement.Exec, hq]

/-- A concrete run of claim C7's theorem: the scenario query on a live
transaction-scoped statement issues exactly one rebound execution on the
reserved connection, and the connection-scoped variant executes the plan
directly. -/
theorem tx_statement_routes_through_reserved_connection_witness :
    (mysqlStatementTx.Query ⟨witnessStmt, ⟨false, witnessTxConn⟩⟩
        exampleNamedQuery).2.2 = [DriverCall.txStmtQuery 11 [5, 5]] ∧
    (mysqlStatement.Query (⟨witnessStmt⟩ : mysqlStatement Nat)
        exampleNamedQuery).2.2 = [DriverCall.stmtQuery 11 [5, 5]] :=
  ⟨(tx_statement_routes_through_reserved_connection witnessStmt
      ⟨false, witnessTxConn⟩ exampleNamedQuery "SELECT x WHERE y = ? AND z = ?"
      [5, 5] (by decide) rfl).2.1,
   (tx_statement_routes_through_reserved_connection witnessStmt
      ⟨false, witnessTxConn⟩ exampleNamedQuery "SELECT x WHERE y = ? AND z = ?"
      [5, 5] (by decide) rfl).2.2.2.2.2.1⟩

/-- Claim C8: Prepare on both handles renders only the query text via the
text-only rendering (SQLQuery) before passing it to the backend's prepare
primitive: the result is independent of the bound values, the one driver
call carries exactly the text-only rendering, the returned error is purely
what the prepare primitive (or the transaction's closed state) reports,
and so Prepare cannot itself fail with a missing-binding error - if the
backend's prepare responses are never binding errors, neither is
Prepare's. -/
theorem prepare_renders_text_only {α : Type} (db : DB α) (t : GoSqlTx α)
    (tpl : List TemplateSeg) (bs bs2 : List (String × α)) :
    mySQL.Prepare ⟨db⟩ ⟨tpl, bs⟩ = mySQL.Prepare ⟨db⟩ ⟨tpl, bs2⟩ ∧
    mySQLtx.Prepare ⟨t⟩ ⟨tpl, bs⟩ = mySQLtx.Prepare ⟨t⟩ ⟨tpl, bs2⟩ ∧
    (mySQL.Prepare ⟨db⟩ ⟨tpl, bs⟩).2.2 =
      [DriverCall.poolPrepare
        (NamedQuery.SQLQuery ⟨tpl, bs⟩ mySQLParamInterpolateStrategyDefault.asStrategy)] ∧
    (mySQL.Prepare ⟨db⟩ ⟨tpl, bs⟩).2.1 =
      (db.prepareResp
        (NamedQuery.SQLQuery ⟨tpl, bs⟩ mySQLParamInterpolateStrategyDefault.asStrategy)).2 ∧
    (mySQLtx.Prepare ⟨t⟩ ⟨tpl, bs⟩).2.1 =
      (if t.done then some GoError.txDone
       else (t.conn.prepareResp
        (NamedQuery.SQLQuery ⟨tpl, bs⟩ mySQLParamInterpolateStrategyDefault.asStrategy)).2) ∧
    ((∀ (s : String) (n : String),
        (db.prepareResp s).2 ≠ some (GoError.missingBinding n)) →
      ∀ n : String,
        (mySQL.Prepare ⟨db⟩ ⟨tpl, bs⟩).2.1 ≠ some (GoError.missingBinding n)) ∧
    ((∀ (s : String) (n : String),
        (t.conn.prepareResp s).2 ≠ some (GoError.missingBinding n)) →
      ∀ n : String,
        (mySQLtx.Prepare ⟨t⟩ ⟨tpl, bs⟩).2.1 ≠ some (GoError.missingBinding n)) := by
  refine ⟨rfl, rfl, rfl, rfl, ?_, ?_, ?_⟩
  · by_cases hd : t.done <;>
      simp [mySQLtx.Prepare, GoSqlTx.PrepareContext, NamedQuery.SQLQuery, hd]
  · intro hb n
    exact hb _ n
  · intro hb n
    by_cases hd : t.done <;>
      simp [mySQLtx.Prepare, GoSqlTx.PrepareContext, NamedQuery.SQLQuery, hd]
    exact hb _ n

/-- Claim C2: the lifecycle wrapper commits exactly when the body returns
(commit = true, err = nil): in that case the wrapper's finalizer trace is
the single commit call and the wrapper returns the commit's error; in
every other normal return it issues Rollback and returns the body's error
(nil when commit was simply false); on a panic it issues Rollback and
re-raises the panic unchanged. -/
theorem runInTransaction_commits_iff_requested {α : Type} (t : mySQLtx α)
    (body : mySQLtx α → BodyOutcome) (hactive : t.tx.done = false) :
    ((runInTransaction t body).2 = [DriverCall.txCommit] ↔
      body t = BodyOutcome.returns true none) ∧
    (body t = BodyOutcome.returns true none →
      runInTransaction t body =
        (TxnOutcome.normal t.tx.conn.commitResp, [DriverCall.txCommit])) ∧
    (∀ (c : Bool) (e : Option GoError), body t = BodyOutcome.returns c e →
      ¬(c = true ∧ e = none) →
      runInTransaction t body =
        (TxnOutcome.normal e, [DriverCall.txRollback])) ∧
    (∀ v : Nat, body t = BodyOutcome.panics v →
      runInTransaction t body =
        (TxnOutcome.panicked v, [DriverCall.txRollback])) := by
  rcases hb : body t with ⟨c, e⟩ | v
  · cases c <;> cases e <;>
      simp [runInTransaction, hb, mySQLtx.Commit, mySQLtx.Rollback,
        GoSqlTx.Commit, GoSqlTx.Rollback, hactive]
  · simp [runInTransaction, hb, mySQLtx.Rollback, GoSqlTx.Rollback, hactive]

/-- A concrete run of claim C2's theorem: a body that opts in to commit
without error makes the wrapper commit and return the backend's (nil)
commit error. -/
theorem runInTransaction_commits_iff_requested_witness :
    runInTransaction (⟨⟨false, witnessTxConn⟩⟩ : mySQLtx Nat)
        (fun _ => BodyOutcome.returns true none) =
      (TxnOutcome.normal none, [DriverCall.txCommit]) :=
  (runInTransaction_commits_iff_requested ⟨⟨false, witnessTxConn⟩⟩
      (fun _ => BodyOutcome.returns true none) rfl).2.1 rfl

/-- Counterexample to claim C4 as stated: on a finalized (terminal)
transaction handle, Query with a query whose placeholder has no bound
value returns the binding error, not the "transaction closed" error - the
interpolation step runs before the transaction is consulted (no backend
call is made either way). -/
theorem closed_transaction_query_binding_error_precedence :
    (mySQLtx.Query (⟨⟨true, witnessTxConn⟩⟩ : mySQLtx Nat)
        missingBindingQuery).2.1 = some (GoError.missingBinding "b") ∧
    some (GoError.missingBinding "b") ≠ some GoError.txDone ∧
    (mySQLtx.Query (⟨⟨true, witnessTxConn⟩⟩ : mySQLtx Nat)
        missingBindingQuery).2.2 = [] := by
  refine ⟨?_, by decide, ?_⟩ <;> rfl

/-- Claim C4 as amended: the transaction handle is a two-phase state
machine - from Active, Commit or Rollback issues exactly its one
finalizer call and moves the handle to the terminal done state; once
terminal, Prepare, Commit and Rollback return the "transaction closed"
error, Query, Insert and Exec return it whenever their rendering succeeds
(a rendering failure returns that binding error instead, still before the
transaction is consulted), and in every case the trace is empty: nothing
executes against the stale reserved connection. -/
theorem transaction_two_phase_state_machine {α : Type}
    (c : TxConn α) (m : mySQLtx α) (q : NamedQuery α)
    (hdone : m.tx.done = true) :
    (mySQLtx.Commit (⟨⟨false, c⟩⟩ : mySQLtx α) =
      (c.commitResp, ⟨⟨true, c⟩⟩, [DriverCall.txCommit])) ∧
    (mySQLtx.Rollback (⟨⟨false, c⟩⟩ : mySQLtx α) =
      (c.rollbackResp, ⟨⟨true, c⟩⟩, [DriverCall.txRollback])) ∧
    ((q.Interpolate mySQLParamInterpolateStrategyDefault.asStrategy).2.2 = none →
      (mySQLtx.Query m q).2.1 = some GoError.txDone ∧
      (mySQLtx.Insert m q).2.1 = some GoError.txDone ∧
      (mySQLtx.Exec m q).2.1 = some GoError.txDone) ∧
    (∀ e : GoError,
      (q.Interpolate mySQLParamInterpolateStrategyDefault.asStrategy).2.2 = some e →
      (mySQLtx.Query m q).2.1 = some e ∧
      (mySQLtx.Insert m q).2.1 = some e ∧
      (mySQLtx.Exec m q).2.1 = some e) ∧
    (mySQLtx.Query m q).2.2 = [] ∧
    (mySQLtx.Insert m q).2.2 = [] ∧
    (mySQLtx.Exec m q).2.2 = [] ∧
    mySQLtx.Prepare m q = (none, some GoError.txDone, []) ∧
    mySQLtx.Commit m = (some GoError.txDone, m, []) ∧
    mySQLtx.Rollback m = (some GoError.txDone, m, []) := by
  rcases hq : q.Interpolate mySQLParamInterpolateStrategyDefault.asStrategy with
    ⟨s, ps, err⟩
  refine ⟨?_, ?_, ?_, ?_, ?_, ?_, ?_, ?_, ?_, ?_⟩
  · simp [mySQLtx.Commit, GoSqlTx.Commit]
  · simp [mySQLtx.Rollback, GoSqlTx.Rollback]
  · intro h
    simp only at h
    subst h
    simp [mySQLtx.Query, mySQLtx.Insert, mySQLtx.Exec, GoSqlTx.QueryContext,
      GoSqlTx.ExecContext, hq, hdone]
  · intro e h
    simp only at h
    subst h
    simp [mySQLtx.Query, mySQLtx.Insert, mySQLtx.Exec, hq]
  · cases err <;>
      simp [mySQLtx.Query, GoSqlTx.QueryContext, hq, hdone]
  · cases err <;>
      simp [mySQLtx.Insert, GoSqlTx.ExecContext, hq, hdone]
  · cases err <;>
      simp [mySQLtx.Exec, GoSqlTx.ExecContext, hq, hdone]
  · simp [mySQLtx.Prepare, GoSqlTx.PrepareContext, hdone]
  · simp [mySQLtx.Commit, GoSqlTx.Commit, hdone]
  · simp [mySQLtx.Rollback, GoSqlTx.Rollback, hdone]

/-- A concrete run of claim C4's theorem: on a finalized handle, a
well-bound query's Query returns the transaction-closed error, and Commit
fails again with it; from Active, Commit finalizes with the single commit
call. -/
theorem transaction_two_phase_state_machine_witness :
    (mySQLtx.Query (⟨⟨true, witnessTxConn⟩⟩ : mySQLtx Nat)
        exampleNamedQuery).2.1 = some GoError.txDone ∧
    mySQLtx.Commit (⟨⟨true, witnessTxConn⟩⟩ : mySQLtx Nat) =
      (some GoError.txDone, ⟨⟨true, witnessTxConn⟩⟩, []) ∧
    mySQLtx.Commit (⟨⟨false, witnessTxConn⟩⟩ : mySQLtx Nat) =
      (none, ⟨⟨true, witnessTxConn⟩⟩, [DriverCall.txCommit]) :=
  ⟨((transaction_two_phase_state_machine witnessTxConn ⟨⟨true, witnessTxConn⟩⟩
      exampleNamedQuery rfl).2.2.1 (by decide)).1,
   (transaction_two_phase_state_machine witnessTxConn ⟨⟨true, witnessTxConn⟩⟩
      exampleNamedQuery rfl).2.2.2.2.2.2.2.2.1,
   (transaction_two_phase_state_machine witnessTxConn ⟨⟨true, witnessTxConn⟩⟩
      exampleNamedQuery rfl).1⟩
